import Mathlib

/-!
Shallow embedding of the LigindiWM window manager
(src/LigindiWM/window_manager.py) and proofs about it.

Window handles are modelled as natural-number ids.  The X server side
(window attributes, save-set, destroyed windows, focus, grabs) is an
explicit record; each Xlib call used by the source becomes a pure state
transformer on that record.  The manager's own state (the client → frame
registry, insertion ordered like a Python dict, plus the drag-start
fields) lives in `Sys`.  Event handlers are pure functions `Sys → Sys`
(or `Sys → Option Sys` where the Python can raise).
-/

namespace LigindiWM

/-! ### X protocol constants (values of the Xlib.X names used by the source) -/

def IsViewable : Nat := 2
def Button1Mask : Nat := 256
def Button3Mask : Nat := 1024
def Mod1Mask : Nat := 8
def StackAbove : Int := 0
def BadAccess : Nat := 10
def MotionNotifyType : Nat := 6
def SubstructureMask : Nat := 1572864

/-- Keycode the display maps the F4 keysym to (a fixed value of the model
display's keymap; only its distinctness from the Tab keycode matters). -/
def keycodeF4 : Nat := 70

/-- Keycode the display maps the Tab keysym to. -/
def keycodeTab : Nat := 23

/-- Interned atom WM_PROTOCOLS. -/
def WM_PROTOCOLS : Nat := 1

/-- Interned atom WM_DELETE_WINDOW. -/
def WM_DELETE_WINDOW : Nat := 2

/-! ### X server side state -/

/-- Per-window attributes and geometry as the X server tracks them.
`sibling` and `stackMode` record the most recent stacking directive
applied to the window by a configure call. -/
structure XWin where
  x : Int := 0
  y : Int := 0
  width : Int := 0
  height : Int := 0
  borderWidth : Int := 0
  borderPixel : Nat := 0
  bgPixel : Nat := 0
  overrideRedirect : Bool := false
  mapState : Nat := 0
  parent : Nat := 0
  eventMask : Nat := 0
  sibling : Option Nat := none
  stackMode : Option Int := none
  wmProtocols : List Nat := []
  deriving Repr, DecidableEq

/-- The X server state visible to the manager. -/
structure XState where
  root : Nat
  wins : Nat → XWin
  nextId : Nat
  saveSet : List Nat := []
  destroyed : List Nat := []
  focus : Option Nat := none
  buttonGrabs : List (Nat × Nat × Nat) := []
  keyGrabs : List (Nat × Nat × Nat) := []
  sentMessages : List (Nat × Nat) := []
  killed : List Nat := []

def XState.setWin (xs : XState) (i : Nat) (w : XWin) : XState :=
  { xs with wins := fun j => if j = i then w else xs.wins j }

/-- XCreateSimpleWindow: allocate a fresh id with the given geometry. -/
def XState.createSimpleWindow (xs : XState) (parent : Nat)
    (x y width height borderWidth : Int) (borderPixel bgPixel : Nat) :
    Nat × XState :=
  let fresh := xs.nextId
  let xs2 := xs.setWin fresh
    { x := x, y := y, width := width, height := height,
      borderWidth := borderWidth, borderPixel := borderPixel,
      bgPixel := bgPixel, parent := parent }
  (fresh, { xs2 with nextId := fresh + 1 })

/-- XChangeWindowAttributes restricted to the event mask (the only
attribute the source changes this way). -/
def XState.changeAttributes (xs : XState) (i : Nat) (mask : Nat) : XState :=
  xs.setWin i { xs.wins i with eventMask := mask }

def XState.addToSaveSet (xs : XState) (w : Nat) : XState :=
  { xs with saveSet := w :: xs.saveSet }

def XState.removeFromSaveSet (xs : XState) (w : Nat) : XState :=
  { xs with saveSet := xs.saveSet.filter (fun v => v ≠ w) }

/-- XReparentWindow: the window becomes a child of `p` at offset (dx, dy). -/
def XState.reparent (xs : XState) (w : Nat) (p : Nat) (dx dy : Int) : XState :=
  xs.setWin w { xs.wins w with parent := p, x := dx, y := dy }

def XState.mapWin (xs : XState) (w : Nat) : XState :=
  xs.setWin w { xs.wins w with mapState := IsViewable }

def XState.unmapWin (xs : XState) (w : Nat) : XState :=
  xs.setWin w { xs.wins w with mapState := 0 }

def XState.destroyWin (xs : XState) (w : Nat) : XState :=
  { xs with destroyed := w :: xs.destroyed }

def XState.grabButton (xs : XState) (w button modifiers : Nat) : XState :=
  { xs with buttonGrabs := (w, button, modifiers) :: xs.buttonGrabs }

def XState.grabKey (xs : XState) (w keycode modifiers : Nat) : XState :=
  { xs with keyGrabs := (w, keycode, modifiers) :: xs.keyGrabs }

def XState.setInputFocus (xs : XState) (w : Nat) : XState :=
  { xs with focus := some w }

def XState.sendClientMessage (xs : XState) (w msgType : Nat) : XState :=
  { xs with sentMessages := (w, msgType) :: xs.sentMessages }

def XState.killClient (xs : XState) (w : Nat) : XState :=
  { xs with killed := w :: xs.killed }

/-- Fields of an XConfigureWindow call; `none` means the field was not
supplied. -/
structure Changes where
  x : Option Int := none
  y : Option Int := none
  width : Option Int := none
  height : Option Int := none
  borderWidth : Option Int := none
  sibling : Option Nat := none
  stackMode : Option Int := none

def XWin.applyChanges (w : XWin) (c : Changes) : XWin :=
  { w with
    x := c.x.getD w.x,
    y := c.y.getD w.y,
    width := c.width.getD w.width,
    height := c.height.getD w.height,
    borderWidth := c.borderWidth.getD w.borderWidth,
    sibling := match c.sibling with
      | some v => some v
      | none => w.sibling,
    stackMode := match c.stackMode with
      | some v => some v
      | none => w.stackMode }

def XState.configure (xs : XState) (i : Nat) (c : Changes) : XState :=
  xs.setWin i ((xs.wins i).applyChanges c)

/-! ### Manager state: client registry (Python dict, insertion ordered)
plus drag-start fields. -/

def containsClient : List (Nat × Nat) → Nat → Bool
  | [], _ => false
  | p :: rest, w => p.1 == w || containsClient rest w

def lookupClient : List (Nat × Nat) → Nat → Option Nat
  | [], _ => none
  | p :: rest, w => if p.1 == w then some p.2 else lookupClient rest w

def removeClientKey : List (Nat × Nat) → Nat → List (Nat × Nat)
  | [], _ => []
  | p :: rest, w =>
    if p.1 == w then removeClientKey rest w else p :: removeClientKey rest w

structure Sys where
  x : XState
  clients : List (Nat × Nat) := []
  dragStartPos : Int × Int := (0, 0)
  dragStartFramePos : Int × Int := (0, 0)
  dragStartFrameSize : Int × Int := (0, 0)

/-! ### Framing engine (WindowManager.Frame / WindowManager.Unframe) -/

def BORDER_WIDTH : Int := 3
def BORDER_COLOR : Nat := 0xff0000
def BG_COLOR : Nat := 0x0000ff

/-- WindowManager.Frame(w, was_created_before_window_manager). -/
def Frame (s : Sys) (w : Nat) (wasCreatedBeforeWM : Bool) : Sys :=
  if containsClient s.clients w then s
  else
    let attrs := s.x.wins w
    if wasCreatedBeforeWM && (attrs.overrideRedirect || attrs.mapState != IsViewable) then s
    else
      let created := s.x.createSimpleWindow s.x.root attrs.x attrs.y
        attrs.width attrs.height BORDER_WIDTH BORDER_COLOR BG_COLOR
      let frame := created.1
      let x1 := created.2
      let x2 := x1.changeAttributes frame SubstructureMask
      let x3 := x2.addToSaveSet w
      let x4 := x3.reparent w frame 0 0
      let x5 := x4.mapWin frame
      let clients2 := s.clients ++ [(w, frame)]
      let x6 := x5.grabButton w 1 Mod1Mask
      let x7 := x6.grabButton w 3 Mod1Mask
      let x8 := x7.grabKey w keycodeF4 Mod1Mask
      let x9 := x8.grabKey w keycodeTab Mod1Mask
      { s with x := x9, clients := clients2 }

/-- WindowManager.Unframe(w). -/
def Unframe (s : Sys) (w : Nat) : Sys :=
  match lookupClient s.clients w with
  | none => s
  | some frame =>
    let x1 := s.x.unmapWin frame
    let x2 := x1.reparent w s.x.root 0 0
    let x3 := x2.removeFromSaveSet w
    let x4 := x3.destroyWin frame
    { s with x := x4, clients := removeClientKey s.clients w }

/-! ### Events -/

structure UnmapEvent where
  window : Nat
  event : Nat
  deriving Repr, DecidableEq

structure MapRequestEvent where
  window : Nat
  deriving Repr, DecidableEq

structure ConfigureRequestEvent where
  window : Nat
  x : Int
  y : Int
  width : Int
  height : Int
  border_width : Int
  above : Nat
  detail : Int
  deriving Repr, DecidableEq

structure ButtonEvent where
  window : Nat
  x_root : Int
  y_root : Int
  deriving Repr, DecidableEq

structure MotionEvent where
  window : Nat
  x_root : Int
  y_root : Int
  state : Nat
  deriving Repr, DecidableEq

structure KeyEvent where
  window : Nat
  state : Nat
  keycode : Nat
  deriving Repr, DecidableEq

inductive XEvent where
  | createNotify (window : Nat)
  | destroyNotify (window : Nat)
  | reparentNotify (window : Nat)
  | mapNotify (window : Nat)
  | unmapNotify (e : UnmapEvent)
  | configureNotify (window : Nat)
  | mapRequest (e : MapRequestEvent)
  | configureRequest (e : ConfigureRequestEvent)
  | buttonPress (e : ButtonEvent)
  | buttonRelease (window : Nat)
  | motionNotify (e : MotionEvent)
  | keyPress (e : KeyEvent)
  | keyRelease (window : Nat)
  | other (t : Nat) (window : Nat)
  deriving Repr, DecidableEq

/-- The numeric event type (matching the X protocol codes in util.py). -/
def XEvent.xtypeOf : XEvent → Nat
  | .createNotify _ => 16
  | .destroyNotify _ => 17
  | .reparentNotify _ => 21
  | .mapNotify _ => 19
  | .unmapNotify _ => 18
  | .configureNotify _ => 22
  | .mapRequest _ => 20
  | .configureRequest _ => 23
  | .buttonPress _ => 4
  | .buttonRelease _ => 5
  | .motionNotify _ => 6
  | .keyPress _ => 2
  | .keyRelease _ => 3
  | .other t _ => t

/-- The `window` attribute every modelled event carries. -/
def XEvent.windowOf : XEvent → Nat
  | .createNotify w => w
  | .destroyNotify w => w
  | .reparentNotify w => w
  | .mapNotify w => w
  | .unmapNotify e => e.window
  | .configureNotify w => w
  | .mapRequest e => e.window
  | .configureRequest e => e.window
  | .buttonPress e => e.window
  | .buttonRelease w => w
  | .motionNotify e => e.window
  | .keyPress e => e.window
  | .keyRelease w => w
  | .other _ w => w

/-! ### Event handlers -/

/-- WindowManager.OnUnmapNotify. -/
def OnUnmapNotify (s : Sys) (e : UnmapEvent) : Sys :=
  if !(containsClient s.clients e.window) then s
  else if e.event == s.x.root then s
  else Unframe s e.window

/-- WindowManager.OnMapRequest. -/
def OnMapRequest (s : Sys) (e : MapRequestEvent) : Sys :=
  let s1 := Frame s e.window false
  { s1 with x := s1.x.mapWin e.window }

/-- WindowManager.OnConfigureRequest. -/
def OnConfigureRequest (s : Sys) (e : ConfigureRequestEvent) : Sys :=
  let changes : Changes :=
    { x := some e.x, y := some e.y, width := some e.width,
      height := some e.height, borderWidth := some e.border_width,
      sibling := some e.above, stackMode := some e.detail }
  let x1 :=
    match lookupClient s.clients e.window with
    | some frame => s.x.configure frame changes
    | none => s.x
  { s with x := x1.configure e.window changes }

/-- WindowManager.OnButtonPress. -/
def OnButtonPress (s : Sys) (e : ButtonEvent) : Sys :=
  match lookupClient s.clients e.window with
  | none => s
  | some frame =>
    let g := s.x.wins frame
    let s2 := { s with
      dragStartPos := (e.x_root, e.y_root),
      dragStartFramePos := (g.x, g.y),
      dragStartFrameSize := (g.width, g.height) }
    { s2 with x := s2.x.configure frame ({ stackMode := some StackAbove } : Changes) }

/-- WindowManager.OnMotionNotify. -/
def OnMotionNotify (s : Sys) (e : MotionEvent) : Sys :=
  match lookupClient s.clients e.window with
  | none => s
  | some frame =>
    let dragPos : Int × Int := (e.x_root, e.y_root)
    let delta : Int × Int :=
      (dragPos.1 - s.dragStartPos.1, dragPos.2 - s.dragStartPos.2)
    if e.state &&& Button1Mask ≠ 0 then
      let destFramePos : Int × Int :=
        (s.dragStartFramePos.1 + delta.1, s.dragStartFramePos.2 + delta.2)
      let x1 := s.x.configure frame
        ({ x := some destFramePos.1, y := some destFramePos.2 } : Changes)
      { s with x := x1 }
    else if e.state &&& Button3Mask ≠ 0 then
      let sizeDelta : Int × Int :=
        (max delta.1 (-s.dragStartFrameSize.1),
         max delta.2 (-s.dragStartFrameSize.2))
      let destFrameSize : Int × Int :=
        (s.dragStartFrameSize.1 + sizeDelta.1,
         s.dragStartFrameSize.2 + sizeDelta.2)
      let x1 := s.x.configure frame
        ({ width := some destFrameSize.1, height := some destFrameSize.2 } : Changes)
      let x2 := x1.configure e.window
        ({ width := some destFrameSize.1, height := some destFrameSize.2 } : Changes)
      { s with x := x2 }
    else s

/-- Mirror of the Python iterator search in the alt+tab branch: walk the
registry keys until the current window is found; `none` means the
search itself raised StopIteration (window absent — uncaught in the
source), `some r` returns what the following `next(i)` would yield
(`r = none` encodes StopIteration caught by the wrap-around clause). -/
def findNextAfter : List Nat → Nat → Option (Option Nat)
  | [], _ => none
  | k :: rest, w => if k == w then some rest.head? else findNextAfter rest w

/-- WindowManager.OnKeyPress.  Returns `none` when the Python raises
(uncaught StopIteration / KeyError). -/
def OnKeyPress (s : Sys) (e : KeyEvent) : Option Sys :=
  if e.state &&& Mod1Mask ≠ 0 ∧ e.keycode = keycodeF4 then
    let protos := (s.x.wins e.window).wmProtocols
    if WM_DELETE_WINDOW ∈ protos then
      some { s with x := s.x.sendClientMessage e.window WM_PROTOCOLS }
    else
      some { s with x := s.x.killClient e.window }
  else if e.state &&& Mod1Mask ≠ 0 ∧ e.keycode = keycodeTab then
    let keys := s.clients.map Prod.fst
    match findNextAfter keys e.window with
    | none => none
    | some r =>
      let nextWindow? : Option Nat :=
        match r with
        | some nw => some nw
        | none => keys.head?
      match nextWindow? with
      | none => none
      | some nextWindow =>
        match lookupClient s.clients nextWindow with
        | none => none
        | some nextFrame =>
          let x1 := s.x.configure nextFrame ({ stackMode := some StackAbove } : Changes)
          some { s with x := x1.setInputFocus nextWindow }
  else some s

/-! ### Dispatcher (the loop body of WindowManager.Run) -/

/-- The motion-coalescing loop exactly as written in the source:
while events are pending, pull the next one; break when
`e.type != MotionNotify or e.window != e.window` (the second disjunct
compares the freshly pulled event's window with itself).  Returns the
event the handler will be called with and the remaining queue. -/
def drainPending : XEvent → List XEvent → XEvent × List XEvent
  | e, [] => (e, [])
  | _, q :: rest =>
    if q.xtypeOf ≠ MotionNotifyType ∨ q.windowOf ≠ q.windowOf then (q, rest)
    else drainPending q rest

/-- OnMotionNotify as invoked by the dispatcher, which may hand it an
event of a different kind (after breaking out of the drain loop).
Python first reads `e.window` (present on every event) and returns if it
is not a registry key; on a registered window it then reads
`e.x_root`, `e.y_root`, `e.state`, which a non-motion event record does
not carry — modelled as `none` (AttributeError). -/
def OnMotionNotifyAny (s : Sys) (ev : XEvent) : Option Sys :=
  match ev with
  | .motionNotify m => some (OnMotionNotify s m)
  | e =>
    if containsClient s.clients e.windowOf then none
    else some s

/-- One iteration of the main event loop: the head of the queue is the
event `next_event()` returns; the rest is the pending queue. -/
def dispatchStep (s : Sys) : List XEvent → Option (Sys × List XEvent)
  | [] => none
  | e :: pending =>
    match e with
    | .createNotify _ => some (s, pending)
    | .destroyNotify _ => some (s, pending)
    | .reparentNotify _ => some (s, pending)
    | .mapNotify _ => some (s, pending)
    | .unmapNotify u => some (OnUnmapNotify s u, pending)
    | .configureNotify _ => some (s, pending)
    | .mapRequest m => some (OnMapRequest s m, pending)
    | .configureRequest c => some (OnConfigureRequest s c, pending)
    | .buttonPress b => some (OnButtonPress s b, pending)
    | .buttonRelease _ => some (s, pending)
    | .motionNotify m =>
      let r := drainPending (XEvent.motionNotify m) pending
      (OnMotionNotifyAny s r.1).map (fun s2 => (s2, r.2))
    | .keyPress k => (OnKeyPress s k).map (fun s2 => (s2, pending))
    | .keyRelease _ => some (s, pending)
    | .other _ _ => some (s, pending)

/-! ### WM detection interceptor (WindowManager.OnWMDetected) -/

/-- OnWMDetected: asserts the error code is BadAccess (assertion failure
modelled as `none`), then sets the detection flag and returns 0. -/
def OnWMDetected (_wmDetected : Bool) (errorCode : Nat) : Option (Bool × Nat) :=
  if errorCode = BadAccess then some (true, 0) else none

/-! ### Lifecycle traces (for the registry/lifecycle claims) -/

inductive LifeOp where
  | frameOp (wasPreExisting : Bool)
  | unframeOp
  deriving Repr, DecidableEq

def applyOp (s : Sys) (w : Nat) : LifeOp → Sys
  | .frameOp pre => Frame s w pre
  | .unframeOp => Unframe s w

def applyOps (s : Sys) (w : Nat) : List LifeOp → Sys
  | [] => s
  | op :: rest => applyOps (applyOp s w op) w rest

/-- The attribute condition under which Frame skips a pre-existing
window (read from the state at the time of the call). -/
def skipAttrs (s : Sys) (w : Nat) : Bool :=
  (s.x.wins w).overrideRedirect || ((s.x.wins w).mapState != IsViewable)

/-! ### Concrete states used to evaluate the definitions -/

/-- Every window viewable, not override-redirect. -/
def exWinsBase : Nat → XWin :=
  fun _ => { width := 50, height := 50, mapState := IsViewable }

def exBase : Sys := { x := { root := 0, wins := exWinsBase, nextId := 100 } }

/-- Every window override-redirect (and viewable). -/
def exWinsOR : Nat → XWin :=
  fun _ => { overrideRedirect := true, mapState := IsViewable }

def exOR : Sys := { x := { root := 0, wins := exWinsOR, nextId := 100 } }

/-- Window attributes for a state with two framed clients: client 1 in
frame 10, client 2 in frame 20. -/
def exWinsDrag : Nat → XWin := fun i =>
  if i = 10 then
    { x := 5, y := 5, width := 50, height := 50, borderWidth := 3 }
  else if i = 20 then
    { x := 200, y := 0, width := 60, height := 60, borderWidth := 3 }
  else
    { width := 50, height := 50, mapState := IsViewable }

def exDrag : Sys :=
  { x := { root := 0, wins := exWinsDrag, nextId := 100 },
    clients := [(1, 10), (2, 20)] }

/-- Three framed clients in registry order [1, 2, 3]. -/
def exCycle : Sys :=
  { x := { root := 0, wins := exWinsDrag, nextId := 100 },
    clients := [(1, 10), (2, 20), (3, 30)] }

/-- Spec-side definition of the cycling target, phrased on a split of the
registry around the current window: the next entry after the current
one, wrapping to the first entry when the current window is last. -/
def specNextInOrder (pre post : List (Nat × Nat)) (w : Nat) : Nat :=
  match post with
  | p :: _ => p.1
  | [] =>
    match pre with
    | q :: _ => q.1
    | [] => w

/-! ### Registry lemmas -/

theorem containsClient_eq_isSome (c : List (Nat × Nat)) (w : Nat) :
    containsClient c w = (lookupClient c w).isSome := by
  induction c with
  | nil => rfl
  | cons p rest ih =>
    by_cases h : p.1 = w <;> simp [containsClient, lookupClient, h, ih]

theorem containsClient_removeClientKey (c : List (Nat × Nat)) (w : Nat) :
    containsClient (removeClientKey c w) w = false := by
  induction c with
  | nil => rfl
  | cons p rest ih =>
    by_cases h : p.1 = w <;> simp [removeClientKey, containsClient, h, ih]

theorem containsClient_append (l1 l2 : List (Nat × Nat)) (w : Nat) :
    containsClient (l1 ++ l2) w = (containsClient l1 w || containsClient l2 w) := by
  induction l1 with
  | nil => simp [containsClient]
  | cons p rest ih => simp [containsClient, ih, Bool.or_assoc]

theorem lookupClient_append_of_not_mem (l1 l2 : List (Nat × Nat)) (w : Nat)
    (h : ∀ p ∈ l1, p.1 ≠ w) :
    lookupClient (l1 ++ l2) w = lookupClient l2 w := by
  induction l1 with
  | nil => rfl
  | cons p rest ih =>
    have hp : p.1 ≠ w := h p (by simp)
    simp only [List.cons_append, lookupClient, beq_iff_eq, if_neg hp]
    exact ih (fun q hq => h q (by simp [hq]))

/-! ### Framing engine lemmas -/

theorem Frame_of_contains (s : Sys) (w : Nat) (b : Bool)
    (h : containsClient s.clients w = true) : Frame s w b = s := by
  simp [Frame, h]

theorem Frame_of_skip (s : Sys) (w : Nat)
    (h : skipAttrs s w = true) : Frame s w true = s := by
  unfold Frame
  by_cases hc : containsClient s.clients w = true
  · simp [hc]
  · simp only [skipAttrs] at h
    simp [hc, h]

theorem contains_Frame (s : Sys) (w : Nat) (b : Bool)
    (h : ¬(b = true ∧ skipAttrs s w = true)) :
    containsClient (Frame s w b).clients w = true := by
  unfold Frame
  by_cases hc : containsClient s.clients w = true
  · simp [hc]
  · have hskip : (b && ((s.x.wins w).overrideRedirect
        || ((s.x.wins w).mapState != IsViewable))) = false := by
      cases b with
      | false => rfl
      | true =>
        simp only [Bool.true_and]
        have hs : skipAttrs s w = false := by
          cases hsk : skipAttrs s w with
          | false => rfl
          | true => exact absurd ⟨rfl, hsk⟩ h
        simpa [skipAttrs] using hs
    simp [hc, hskip, containsClient_append, containsClient]

theorem Frame_clients_mono (s : Sys) (w v : Nat) (b : Bool)
    (h : containsClient s.clients v = true) :
    containsClient (Frame s w b).clients v = true := by
  unfold Frame
  by_cases hc : containsClient s.clients w = true
  · simp [hc, h]
  · by_cases hcond : (b && ((s.x.wins w).overrideRedirect
        || ((s.x.wins w).mapState != IsViewable))) = true
    · simp [hc, hcond, h]
    · simp [hc, hcond, containsClient_append, h]

theorem contains_Unframe (s : Sys) (w : Nat) :
    containsClient (Unframe s w).clients w = false := by
  unfold Unframe
  cases h : lookupClient s.clients w with
  | none => simp [containsClient_eq_isSome, h]
  | some frame => simp [containsClient_removeClientKey]

theorem Frame_root (s : Sys) (w : Nat) (b : Bool) :
    (Frame s w b).x.root = s.x.root := by
  unfold Frame
  by_cases hc : containsClient s.clients w = true
  · simp [hc]
  · by_cases hcond : (b && ((s.x.wins w).overrideRedirect
        || ((s.x.wins w).mapState != IsViewable))) = true
    · simp [hc, hcond]
    · simp [hc, hcond, XState.grabKey, XState.grabButton, XState.mapWin,
        XState.reparent, XState.addToSaveSet, XState.changeAttributes,
        XState.createSimpleWindow, XState.setWin]

theorem Frame_idem (s : Sys) (w : Nat) (b : Bool) :
    Frame (Frame s w b) w b = Frame s w b := by
  by_cases hc : containsClient s.clients w = true
  · have h1 := Frame_of_contains s w b hc
    rw [h1]
    exact h1
  · by_cases hsk : b = true ∧ skipAttrs s w = true
    · obtain ⟨hb, hs⟩ := hsk
      subst hb
      have h1 := Frame_of_skip s w hs
      rw [h1]
      exact h1
    · exact Frame_of_contains _ _ _ (contains_Frame s w b hsk)

/-! ### Claim theorems -/

/-- C10: the detection-probe interceptor OnWMDetected assumes every error
it receives is BadAccess: any other error code fails its assertion
(modelled as `none`), and on BadAccess it sets the detection flag and
returns 0 (a value the protocol layer ignores). -/
theorem onWMDetected_badaccess_only (flag : Bool) (code : Nat) :
    (code ≠ BadAccess → OnWMDetected flag code = none) ∧
    OnWMDetected flag BadAccess = some (true, 0) := by
  constructor
  · intro h
    simp [OnWMDetected, h]
  · simp [OnWMDetected]

theorem onWMDetected_badaccess_only_witness :
    ((11 : Nat) ≠ BadAccess ∧ OnWMDetected false 11 = none) ∧
    OnWMDetected false BadAccess = some (true, 0) :=
  ⟨⟨by decide, (onWMDetected_badaccess_only false 11).1 (by decide)⟩,
    (onWMDetected_badaccess_only false 10).2⟩

/-- C2: a pre-existing window whose override-redirect attribute is set or
which is not viewable is not framed and the whole state (in particular
the registry) is unchanged; a window arriving via MapRequest is framed
(is in the registry afterwards) regardless of those attributes. -/
theorem frame_preexisting_skip_maprequest_frames (s : Sys) (w : Nat)
    (e : MapRequestEvent)
    (h : (s.x.wins w).overrideRedirect = true ∨ (s.x.wins w).mapState ≠ IsViewable) :
    Frame s w true = s ∧
    containsClient (OnMapRequest s e).clients e.window = true := by
  constructor
  · apply Frame_of_skip
    simp only [skipAttrs]
    rcases h with h | h
    · simp [h]
    · simp [h]
  · have h2 : containsClient (Frame s e.window false).clients e.window = true :=
      contains_Frame s e.window false (by simp)
    simpa [OnMapRequest] using h2

theorem frame_preexisting_skip_maprequest_frames_witness :
    ((exOR.x.wins 5).overrideRedirect = true ∨ (exOR.x.wins 5).mapState ≠ IsViewable) ∧
    (Frame exOR 5 true = exOR ∧
      containsClient (OnMapRequest exOR ⟨5⟩).clients 5 = true) :=
  ⟨Or.inl rfl, frame_preexisting_skip_maprequest_frames exOR 5 ⟨5⟩ (Or.inl rfl)⟩

/-- C3: OnUnmapNotify does nothing when the window is not a registry key;
does nothing when it is a key but the event's reported parent equals the
root; and invokes Unframe exactly when the window is a key and the
reported parent is not the root. -/
theorem unmapnotify_dispatch_cases (s : Sys) (e : UnmapEvent) :
    (containsClient s.clients e.window = false → OnUnmapNotify s e = s) ∧
    (containsClient s.clients e.window = true → e.event = s.x.root →
      OnUnmapNotify s e = s) ∧
    (containsClient s.clients e.window = true → e.event ≠ s.x.root →
      OnUnmapNotify s e = Unframe s e.window) := by
  refine ⟨fun h => ?_, fun h1 h2 => ?_, fun h1 h2 => ?_⟩
  · simp [OnUnmapNotify, h]
  · simp [OnUnmapNotify, h1, h2]
  · simp [OnUnmapNotify, h1, h2]

theorem unmapnotify_dispatch_cases_witness :
    (containsClient exDrag.clients 5 = false ∧
      OnUnmapNotify exDrag ⟨5, 10⟩ = exDrag) ∧
    (containsClient exDrag.clients 1 = true ∧ (10 : Nat) ≠ exDrag.x.root ∧
      OnUnmapNotify exDrag ⟨1, 10⟩ = Unframe exDrag 1) :=
  ⟨⟨rfl, (unmapnotify_dispatch_cases exDrag ⟨5, 10⟩).1 rfl⟩,
    ⟨rfl, by decide,
      (unmapnotify_dispatch_cases exDrag ⟨1, 10⟩).2.2 rfl (by decide)⟩⟩

/-- C7 (amended): the MotionNotify handler is a no-op exactly when the
event's window is not registered or no move/resize button-modifier bit is
set in the event state; it performs no per-client drag-session check, so
a registered client with no modifier bits set changes nothing, but the
handler does not verify that the recorded drag-start data belongs to
this client. -/
theorem motionnotify_noop_condition (s : Sys) (e : MotionEvent)
    (h : lookupClient s.clients e.window = none ∨
      (e.state &&& Button1Mask = 0 ∧ e.state &&& Button3Mask = 0)) :
    OnMotionNotify s e = s := by
  rcases h with h | ⟨h1, h3⟩
  · simp [OnMotionNotify, h]
  · unfold OnMotionNotify
    cases hl : lookupClient s.clients e.window with
    | none => rfl
    | some frame => simp [h1, h3]

theorem motionnotify_noop_condition_witness :
    ((0 : Nat) &&& Button1Mask = 0 ∧ (0 : Nat) &&& Button3Mask = 0) ∧
    OnMotionNotify exDrag ⟨1, 30, 40, 0⟩ = exDrag :=
  ⟨⟨rfl, rfl⟩,
    motionnotify_noop_condition exDrag ⟨1, 30, 40, 0⟩ (Or.inr ⟨rfl, rfl⟩)⟩

/-- C7 counterexample: a ButtonPress on registered client 1 records drag
data for client 1; a MotionNotify on registered client 2 — for which no
DragSession was ever started — still moves frame 20 (its x coordinate
changes from 200 to 35, computed from client 1's drag-start data),
refuting the claim that it changes nothing. -/
theorem motionnotify_crossclient_counterexample :
    ((OnMotionNotify (OnButtonPress exDrag ⟨1, 100, 100⟩)
        ⟨2, 130, 110, 256⟩).x.wins 20).x = 35 ∧
    ((OnButtonPress exDrag ⟨1, 100, 100⟩).x.wins 20).x = 200 := by
  exact ⟨by decide, by decide⟩

/-- C6: for a MotionNotify on a registered client, with
delta = current root position − drag-start root position: if the
move-button bit (Button1) is set the frame moves to drag-start frame
position + delta with size unchanged; else if the resize-button bit
(Button3) is set the frame and the client are both resized to
drag-start frame size + max(delta, −drag-start frame size), which is
never negative. -/
theorem motionnotify_move_resize (s : Sys) (e : MotionEvent) (f : Nat)
    (hf : lookupClient s.clients e.window = some f) :
    (e.state &&& Button1Mask ≠ 0 →
      ((OnMotionNotify s e).x.wins f).x =
        s.dragStartFramePos.1 + (e.x_root - s.dragStartPos.1) ∧
      ((OnMotionNotify s e).x.wins f).y =
        s.dragStartFramePos.2 + (e.y_root - s.dragStartPos.2) ∧
      ((OnMotionNotify s e).x.wins f).width = (s.x.wins f).width ∧
      ((OnMotionNotify s e).x.wins f).height = (s.x.wins f).height) ∧
    (e.state &&& Button1Mask = 0 → e.state &&& Button3Mask ≠ 0 →
      ((OnMotionNotify s e).x.wins f).width =
        s.dragStartFrameSize.1 +
          max (e.x_root - s.dragStartPos.1) (-s.dragStartFrameSize.1) ∧
      ((OnMotionNotify s e).x.wins f).height =
        s.dragStartFrameSize.2 +
          max (e.y_root - s.dragStartPos.2) (-s.dragStartFrameSize.2) ∧
      ((OnMotionNotify s e).x.wins e.window).width =
        s.dragStartFrameSize.1 +
          max (e.x_root - s.dragStartPos.1) (-s.dragStartFrameSize.1) ∧
      ((OnMotionNotify s e).x.wins e.window).height =
        s.dragStartFrameSize.2 +
          max (e.y_root - s.dragStartPos.2) (-s.dragStartFrameSize.2) ∧
      0 ≤ s.dragStartFrameSize.1 +
          max (e.x_root - s.dragStartPos.1) (-s.dragStartFrameSize.1) ∧
      0 ≤ s.dragStartFrameSize.2 +
          max (e.y_root - s.dragStartPos.2) (-s.dragStartFrameSize.2)) := by
  constructor
  · intro h1
    simp [OnMotionNotify, hf, h1, XState.configure, XState.setWin,
      XWin.applyChanges]
  · intro h1 h3
    have hnn1 : (0 : Int) ≤ s.dragStartFrameSize.1 +
        max (e.x_root - s.dragStartPos.1) (-s.dragStartFrameSize.1) := by
      have hm := le_max_right (e.x_root - s.dragStartPos.1) (-s.dragStartFrameSize.1)
      linarith
    have hnn2 : (0 : Int) ≤ s.dragStartFrameSize.2 +
        max (e.y_root - s.dragStartPos.2) (-s.dragStartFrameSize.2) := by
      have hm := le_max_right (e.y_root - s.dragStartPos.2) (-s.dragStartFrameSize.2)
      linarith
    by_cases hfe : f = e.window
    · subst hfe
      simp [OnMotionNotify, hf, h1, h3, XState.configure, XState.setWin,
        XWin.applyChanges, hnn1, hnn2]
    · simp [OnMotionNotify, hf, h1, h3, XState.configure, XState.setWin,
        XWin.applyChanges, hfe, hnn1, hnn2]

theorem motionnotify_move_resize_witness :
    ((OnMotionNotify exDrag ⟨1, 30, 40, 256⟩).x.wins 10).x = 30 ∧
    ((OnMotionNotify exDrag ⟨1, 30, 40, 256⟩).x.wins 10).width = 50 := by
  have h := (motionnotify_move_resize exDrag ⟨1, 30, 40, 256⟩ 10 rfl).1 (by decide)
  exact ⟨h.1.trans (by decide), h.2.2.1.trans (by decide)⟩

/-- C8 (amended): OnConfigureRequest applies every supplied field
(position, size, border width, sibling, stacking) verbatim to the client
window, and mirrors all of those same fields — including border width
and sibling — onto the client's Frame exactly when the client is in the
registry; no other window is touched and the registry is unchanged. -/
theorem configurerequest_applies_fields (s : Sys) (e : ConfigureRequestEvent) :
    (((OnConfigureRequest s e).x.wins e.window).x = e.x ∧
     ((OnConfigureRequest s e).x.wins e.window).y = e.y ∧
     ((OnConfigureRequest s e).x.wins e.window).width = e.width ∧
     ((OnConfigureRequest s e).x.wins e.window).height = e.height ∧
     ((OnConfigureRequest s e).x.wins e.window).borderWidth = e.border_width ∧
     ((OnConfigureRequest s e).x.wins e.window).sibling = some e.above ∧
     ((OnConfigureRequest s e).x.wins e.window).stackMode = some e.detail) ∧
    (∀ f, lookupClient s.clients e.window = some f →
     ((OnConfigureRequest s e).x.wins f).x = e.x ∧
     ((OnConfigureRequest s e).x.wins f).y = e.y ∧
     ((OnConfigureRequest s e).x.wins f).width = e.width ∧
     ((OnConfigureRequest s e).x.wins f).height = e.height ∧
     ((OnConfigureRequest s e).x.wins f).borderWidth = e.border_width ∧
     ((OnConfigureRequest s e).x.wins f).sibling = some e.above ∧
     ((OnConfigureRequest s e).x.wins f).stackMode = some e.detail) ∧
    (lookupClient s.clients e.window = none →
      ∀ v, v ≠ e.window → (OnConfigureRequest s e).x.wins v = s.x.wins v) ∧
    (OnConfigureRequest s e).clients = s.clients := by
  refine ⟨?_, ?_, ?_, ?_⟩
  · cases hl : lookupClient s.clients e.window with
    | none =>
      simp [OnConfigureRequest, hl, XState.configure, XState.setWin,
        XWin.applyChanges]
    | some f =>
      simp [OnConfigureRequest, hl, XState.configure, XState.setWin,
        XWin.applyChanges]
  · intro f hf
    by_cases hfe : f = e.window
    · subst hfe
      simp [OnConfigureRequest, hf, XState.configure, XState.setWin,
        XWin.applyChanges]
    · simp [OnConfigureRequest, hf, XState.configure, XState.setWin,
        XWin.applyChanges, hfe]
  · intro hl v hv
    simp [OnConfigureRequest, hl, XState.configure, XState.setWin,
      XWin.applyChanges, hv]
  · cases hl : lookupClient s.clients e.window with
    | none => simp [OnConfigureRequest, hl]
    | some f => simp [OnConfigureRequest, hl]

theorem configurerequest_applies_fields_witness :
    lookupClient exDrag.clients 2 = some 20 ∧
    ((OnConfigureRequest exDrag ⟨2, 11, 22, 33, 44, 7, 5, 0⟩).x.wins 20).width = 33 ∧
    (OnConfigureRequest exDrag ⟨2, 11, 22, 33, 44, 7, 5, 0⟩).clients = exDrag.clients := by
  have h := configurerequest_applies_fields exDrag ⟨2, 11, 22, 33, 44, 7, 5, 0⟩
  exact ⟨rfl, (h.2.1 20 rfl).2.2.1, h.2.2.2⟩

/-- C8 counterexample: the claim says exactly position, size and stacking
are mirrored onto the Frame — so the Frame's border width must not
change — but a ConfigureRequest with border_width 7 on framed client 1
changes frame 10's border width from 3 to 7. -/
theorem configurerequest_borderwidth_counterexample :
    ((OnConfigureRequest exDrag ⟨1, 11, 22, 33, 44, 7, 0, 0⟩).x.wins 10).borderWidth = 7 ∧
    (exDrag.x.wins 10).borderWidth = 3 :=
  ⟨by decide, by decide⟩

/-- Unframe on a client with frame `f` in the registry: the frame is
unmapped, the client is reparented under the root at (0,0), removed
from the save-set, the frame is destroyed, and the registry entry is
removed. -/
theorem Unframe_spec (s : Sys) (w f : Nat)
    (hf : lookupClient s.clients w = some f) :
    ((Unframe s w).x.wins w).parent = s.x.root ∧
    ((Unframe s w).x.wins w).x = 0 ∧
    ((Unframe s w).x.wins w).y = 0 ∧
    w ∉ (Unframe s w).x.saveSet ∧
    f ∈ (Unframe s w).x.destroyed ∧
    containsClient (Unframe s w).clients w = false := by
  unfold Unframe
  simp only [hf]
  refine ⟨?_, ?_, ?_, ?_, ?_, ?_⟩
  · simp [XState.destroyWin, XState.removeFromSaveSet, XState.reparent,
      XState.unmapWin, XState.setWin]
  · simp [XState.destroyWin, XState.removeFromSaveSet, XState.reparent,
      XState.unmapWin, XState.setWin]
  · simp [XState.destroyWin, XState.removeFromSaveSet, XState.reparent,
      XState.unmapWin, XState.setWin]
  · simp [XState.destroyWin, XState.removeFromSaveSet, XState.reparent,
      XState.unmapWin, XState.setWin, List.mem_filter]
  · simp [XState.destroyWin, XState.removeFromSaveSet, XState.reparent,
      XState.unmapWin, XState.setWin]
  · simp [containsClient_removeClientKey]

/-- C4: for a client left framed by Frame, Frame immediately followed by
Unframe reparents the client back under the root at (0,0), removes it
from the save-set, destroys the frame, and removes the registry entry. -/
theorem frame_unframe_roundtrip (s : Sys) (w : Nat) (b : Bool)
    (h : containsClient (Frame s w b).clients w = true) :
    ∃ f, lookupClient (Frame s w b).clients w = some f ∧
      (((Unframe (Frame s w b) w).x.wins w).parent = s.x.root ∧
       ((Unframe (Frame s w b) w).x.wins w).x = 0 ∧
       ((Unframe (Frame s w b) w).x.wins w).y = 0 ∧
       w ∉ (Unframe (Frame s w b) w).x.saveSet ∧
       f ∈ (Unframe (Frame s w b) w).x.destroyed ∧
       containsClient (Unframe (Frame s w b) w).clients w = false) := by
  have h2 : (lookupClient (Frame s w b).clients w).isSome = true := by
    rw [← containsClient_eq_isSome]
    exact h
  obtain ⟨f, hf⟩ := Option.isSome_iff_exists.mp h2
  refine ⟨f, hf, ?_⟩
  have hs := Unframe_spec (Frame s w b) w f hf
  rw [Frame_root s w b] at hs
  exact hs

theorem frame_unframe_roundtrip_witness :
    containsClient (Frame exBase 5 false).clients 5 = true ∧
    (∃ f, lookupClient (Frame exBase 5 false).clients 5 = some f ∧
      (((Unframe (Frame exBase 5 false) 5).x.wins 5).parent = exBase.x.root ∧
       ((Unframe (Frame exBase 5 false) 5).x.wins 5).x = 0 ∧
       ((Unframe (Frame exBase 5 false) 5).x.wins 5).y = 0 ∧
       5 ∉ (Unframe (Frame exBase 5 false) 5).x.saveSet ∧
       f ∈ (Unframe (Frame exBase 5 false) 5).x.destroyed ∧
       containsClient (Unframe (Frame exBase 5 false) 5).clients 5 = false)) := by
  have h0 : containsClient (Frame exBase 5 false).clients 5 = true := by decide
  exact ⟨h0, frame_unframe_roundtrip exBase 5 false h0⟩

/-- C5 (the code evaluated at the failing input): dispatching a
MotionNotify for window 1 with a MotionNotify for a different window 2
already queued, the drain loop — whose guard compares the pulled event's
window with itself — consumes the window-2 event and the handler runs
once with ITS coordinates: frame 20 (of window 2) moves to x = 30 while
frame 10 (of window 1) stays at x = 5 and the queue is emptied.
Moreover a queued non-motion event (a KeyPress) is likewise consumed by
the drain loop and never dispatched as a key press. -/
theorem motion_coalescing_bug_eval :
    (dispatchStep exDrag
        [XEvent.motionNotify ⟨1, 50, 60, 256⟩,
         XEvent.motionNotify ⟨2, 30, 40, 256⟩]).map
      (fun r => ((r.1.x.wins 20).x, (r.1.x.wins 10).x, r.2)) =
      some (30, 5, []) ∧
    (dispatchStep exDrag
        [XEvent.motionNotify ⟨1, 50, 60, 256⟩,
         XEvent.keyPress ⟨9, 0, 0⟩]).map (fun r => r.2) = some [] :=
  ⟨by decide, by decide⟩

theorem applyOps_append (s : Sys) (w : Nat) (l1 l2 : List LifeOp) :
    applyOps s w (l1 ++ l2) = applyOps (applyOps s w l1) w l2 := by
  induction l1 generalizing s with
  | nil => rfl
  | cons op rest ih => simp [applyOps, ih]

/-- C1 (amended): after any lifecycle trace on a window, Contains holds
iff the most recent lifecycle operation was a Frame call, with the
proviso that a final Frame call skipped as pre-existing with
override-redirect or non-viewable attributes leaves Contains exactly as
it was before that call; framing an already-contained client is a
no-op, so Frame is idempotent. -/
theorem contains_iff_last_effective_frame (s : Sys) (w : Nat)
    (init : List LifeOp) (op : LifeOp) :
    (containsClient (applyOps s w (init ++ [op])).clients w = true ↔
      ∃ pre, op = LifeOp.frameOp pre ∧
        ((pre = true ∧ skipAttrs (applyOps s w init) w = true) →
          containsClient (applyOps s w init).clients w = true)) ∧
    (∀ b, Frame (Frame s w b) w b = Frame s w b) := by
  constructor
  · rw [applyOps_append]
    cases op with
    | unframeOp =>
      simp only [applyOps, applyOp]
      rw [contains_Unframe]
      constructor
      · intro h
        cases h
      · rintro ⟨pre2, hpe, -⟩
        cases hpe
    | frameOp pre =>
      simp only [applyOps, applyOp]
      constructor
      · intro h
        refine ⟨pre, rfl, fun hps => ?_⟩
        obtain ⟨hp, hsk⟩ := hps
        subst hp
        by_contra hc
        rw [Frame_of_skip (applyOps s w init) w hsk] at h
        exact hc h
      · rintro ⟨pre2, hpe, himp⟩
        injection hpe with hpp
        subst hpp
        by_cases hsk : pre = true ∧ skipAttrs (applyOps s w init) w = true
        · have hco := himp hsk
          rw [Frame_of_contains (applyOps s w init) w pre hco]
          exact hco
        · exact contains_Frame (applyOps s w init) w pre hsk
  · intro b
    exact Frame_idem s w b

theorem contains_iff_last_effective_frame_witness :
    containsClient (applyOps exBase 5 ([] ++ [LifeOp.frameOp false])).clients 5 = true := by
  have h := (contains_iff_last_effective_frame exBase 5 [] (LifeOp.frameOp false)).1
  exact h.mpr ⟨false, rfl, fun hx => absurd hx.1 (by decide)⟩

/-- C1 counterexample: starting from an empty registry where window 7 has
override-redirect set, the trace consisting of the single call
Frame(7, pre-existing) ends in a Frame with no Unframe since — so by the
claim Contains(7) must be true — yet Contains(7) is false, because
Frame skipped the pre-existing override-redirect window. -/
theorem contains_counterexample :
    containsClient (applyOps exOR 7 [LifeOp.frameOp true]).clients 7 = false ∧
    (∃ pre, LifeOp.frameOp true = LifeOp.frameOp pre) :=
  ⟨by decide, ⟨true, rfl⟩⟩

theorem findNextAfter_split (l1 l2 : List Nat) (w : Nat)
    (h : ∀ k ∈ l1, k ≠ w) :
    findNextAfter (l1 ++ w :: l2) w = some l2.head? := by
  induction l1 with
  | nil => simp [findNextAfter]
  | cons k rest ih =>
    have hk : k ≠ w := h k (by simp)
    simp only [List.cons_append, findNextAfter, beq_iff_eq, if_neg hk]
    exact ih (fun q hq => h q (by simp [hq]))

/-- C9: an alt+Tab key press whose window is in the registry selects the
next registry entry in insertion order (wrapping to the first entry when
the current window is last), raises the selected entry's frame and sets
input focus to the selected client; the registry itself is unchanged. -/
theorem keypress_cycle_next (s : Sys) (e : KeyEvent)
    (pre post : List (Nat × Nat)) (fw : Nat)
    (hmod : e.state &&& Mod1Mask ≠ 0) (hkey : e.keycode = keycodeTab)
    (hsplit : s.clients = pre ++ (e.window, fw) :: post)
    (hnodup : (s.clients.map Prod.fst).Nodup) :
    ∃ t selFrame, OnKeyPress s e = some t ∧
      lookupClient s.clients (specNextInOrder pre post e.window) = some selFrame ∧
      t.x.focus = some (specNextInOrder pre post e.window) ∧
      (t.x.wins selFrame).stackMode = some StackAbove ∧
      t.clients = s.clients := by
  have hkeys : s.clients.map Prod.fst =
      pre.map Prod.fst ++ e.window :: post.map Prod.fst := by
    rw [hsplit]
    simp
  have hnd : (pre.map Prod.fst ++ e.window :: post.map Prod.fst).Nodup := by
    rw [← hkeys]
    exact hnodup
  rw [List.nodup_append] at hnd
  obtain ⟨hnd1, hnd2, hdisj⟩ := hnd
  have hpre : ∀ k ∈ pre.map Prod.fst, k ≠ e.window :=
    fun k hk he => hdisj hk (he ▸ List.mem_cons_self _ _)
  have hnotF4 : ¬(e.state &&& Mod1Mask ≠ 0 ∧ e.keycode = keycodeF4) := by
    rintro ⟨-, hf4⟩
    exact absurd (hkey.symm.trans hf4) (by decide)
  have hfind : findNextAfter (s.clients.map Prod.fst) e.window =
      some (post.map Prod.fst).head? := by
    rw [hkeys]
    exact findNextAfter_split _ _ _ hpre
  unfold OnKeyPress
  rw [if_neg hnotF4, if_pos ⟨hmod, hkey⟩]
  simp only [hfind]
  cases post with
  | cons p rest =>
    have hsel : lookupClient s.clients p.1 = some p.2 := by
      have hrw : s.clients = (pre ++ [(e.window, fw)]) ++ p :: rest := by
        rw [hsplit]
        simp
      rw [hrw]
      rw [lookupClient_append_of_not_mem]
      · simp [lookupClient]
      · intro q hq
        rcases List.mem_append.mp hq with hq1 | hq2
        · intro hqe
          exact hdisj (List.mem_map_of_mem Prod.fst hq1)
            (hqe ▸ List.mem_cons_of_mem _ (by simp))
        · have hq3 : q = (e.window, fw) := by simpa using hq2
          subst hq3
          intro hqe
          have hmem : e.window ∈ (p.1 :: rest.map Prod.fst) := hqe ▸ (by simp)
          exact (List.nodup_cons.mp (by simpa using hnd2)).1 hmem
    simp only [List.map_cons, List.head?_cons, hsel, specNextInOrder]
    refine ⟨_, p.2, rfl, rfl, ?_, ?_, rfl⟩
    · rfl
    · simp [XState.setInputFocus, XState.configure, XState.setWin,
        XWin.applyChanges]
  | nil =>
    cases pre with
    | nil =>
      have hcl : s.clients = [(e.window, fw)] := by simpa using hsplit
      have hsel2 : lookupClient [(e.window, fw)] e.window = some fw := by
        simp [lookupClient]
      simp only [List.map_nil, List.head?_nil, hcl, List.map_cons,
        List.head?_cons, hsel2, specNextInOrder]
      refine ⟨_, fw, rfl, rfl, ?_, ?_, rfl⟩
      · rfl
      · simp [XState.setInputFocus, XState.configure, XState.setWin,
          XWin.applyChanges]
    | cons q qrest =>
      have hkeys2 : s.clients.map Prod.fst =
          q.1 :: (qrest.map Prod.fst ++ [e.window]) := by
        simpa using hkeys
      have hsel : lookupClient s.clients q.1 = some q.2 := by
        rw [hsplit]
        simp [lookupClient]
      simp only [List.map_nil, List.head?_nil, hkeys2, List.head?_cons,
        hsel, specNextInOrder]
      refine ⟨_, q.2, rfl, rfl, ?_, ?_, rfl⟩
      · rfl
      · simp [XState.setInputFocus, XState.configure, XState.setWin,
          XWin.applyChanges]

theorem keypress_cycle_next_witness :
    (∃ t selFrame, OnKeyPress exCycle ⟨1, 8, 23⟩ = some t ∧
      lookupClient exCycle.clients 2 = some selFrame ∧
      t.x.focus = some 2 ∧
      (t.x.wins selFrame).stackMode = some StackAbove ∧
      t.clients = exCycle.clients) ∧
    (∃ t selFrame, OnKeyPress exCycle ⟨3, 8, 23⟩ = some t ∧
      lookupClient exCycle.clients 1 = some selFrame ∧
      t.x.focus = some 1 ∧
      (t.x.wins selFrame).stackMode = some StackAbove ∧
      t.clients = exCycle.clients) :=
  ⟨keypress_cycle_next exCycle ⟨1, 8, 23⟩ [] [(2, 20), (3, 30)] 10
      (by decide) rfl rfl (by decide),
    keypress_cycle_next exCycle ⟨3, 8, 23⟩ [(1, 10), (2, 20)] [] 30
      (by decide) rfl rfl (by decide)⟩

end LigindiWM
